import Mathlib

/-!
Shallow embedding of the artifact-lifecycle subsystem of the zma.ai image
studio application: the gallery persistence / eviction algorithm
(`saveToLocalStorage` in the application root component), the gallery
insert (`addImageToGallery`), the startup load, the artifact codec
(compact persisted form), and the edit-chain undo/redo state machine of
the `ImageStudio` component (`processNewImage`, `handleUndo`,
`handleRedo`, `resetOutputs`) together with the chain-continuation
classification computed at each call site.

Machine-level conventions of the embedding:
* JavaScript strings are Lean `String`s.
* `localStorage` under the single key used by the app is modelled as
  `Option (List SavableImage)`: `none` = key absent, `some l` = the key
  holds `JSON.stringify` of the record list `l`.  `JSON.stringify` is
  injective on these records, so comparing stored payloads for byte
  identity is comparing the record lists.
* The capacity behaviour of the durable medium is an abstract parameter
  `medium : List SavableImage → WriteResult` saying what
  `localStorage.setItem` does when asked to store a given record list
  (`success`, throw `QuotaExceededError`, or throw any other error).
  A failed `setItem` leaves the stored content unchanged (localStorage
  writes are atomic).
* Timestamps are milliseconds as `Nat`; `Date.toISOString()` renders the
  millisecond timestamp injectively, modelled by `isoOfMs`.
-/

/-- The `GeneratedImage` record of `types.ts`.  `settings` is the opaque
small configuration blob (`GenerationSettings`), kept abstract as an
optional serialized string since no claim inspects it; `type` is the
category string of the TypeScript string-literal union. -/
structure GeneratedImage where
  id : String
  src : String
  originalSrc : Option String
  base64 : String
  mimeType : String
  prompt : String
  type : String
  createdAt : String
  parentId : Option String
  settings : Option String
deriving DecidableEq, Repr

/-- The compact persisted form of a `GeneratedImage`: the fields kept by
`const \x7b src, originalSrc, ...rest \x7d = img` in `saveToLocalStorage`
(everything except `src` and `originalSrc`). -/
structure SavableImage where
  id : String
  base64 : String
  mimeType : String
  prompt : String
  type : String
  createdAt : String
  parentId : Option String
  settings : Option String
deriving DecidableEq, Repr

/-- The data-URI composition used everywhere in the source:
`data:$mimeType;base64,$base64`. -/
def dataUri (mimeType base64 : String) : String :=
  "data:" ++ mimeType ++ ";base64," ++ base64

/-- `toCompact` of the ArtifactCodec: the map
`img => const \x7b src, originalSrc, ...rest \x7d = img; return rest`
of `saveToLocalStorage`. -/
def toCompact (img : GeneratedImage) : SavableImage :=
  { id := img.id
    base64 := img.base64
    mimeType := img.mimeType
    prompt := img.prompt
    type := img.type
    createdAt := img.createdAt
    parentId := img.parentId
    settings := img.settings }

/-- `fromCompact` of the ArtifactCodec: the reconstruction
`img => (\x7b ...img, src: data:$mimeType;base64,$base64 \x7d)` used both
at startup and in the total-failure rollback.  `originalSrc` is not
persisted, so it comes back absent. -/
def fromCompact (rec : SavableImage) : GeneratedImage :=
  { id := rec.id
    src := dataUri rec.mimeType rec.base64
    originalSrc := none
    base64 := rec.base64
    mimeType := rec.mimeType
    prompt := rec.prompt
    type := rec.type
    createdAt := rec.createdAt
    parentId := rec.parentId
    settings := rec.settings }

/-- The §3 data-model invariant of well-formed artifacts: `displayBytes`
(`src`) is the data-URI composition of `mediaType` and `rawBytes`
(`mimeType` and `base64`).  Every constructor in the source builds `src`
exactly this way. -/
def WellFormedSrc (img : GeneratedImage) : Prop :=
  img.src = dataUri img.mimeType img.base64

instance (img : GeneratedImage) : Decidable (WellFormedSrc img) := by
  unfold WellFormedSrc; infer_instance

/-- `addImageToGallery` of the root `App` component: no-op when the id is
already present, otherwise prepend (newest-first). -/
def addImageToGallery (image : GeneratedImage) (prev : List GeneratedImage) :
    List GeneratedImage :=
  if prev.any (fun img => img.id == image.id) then prev
  else image :: prev

/-- The `useState` initializer of the root `App` component: read the
stored payload (`none` when the key is absent), `JSON.parse` it
(`parse s = none` models a parse exception, caught by the surrounding
`try`), and reconstruct `src` on each stored record. -/
def initialGalleryImages (localData : Option String)
    (parse : String → Option (List SavableImage)) : List GeneratedImage :=
  match localData with
  | none => []
  | some s =>
    match parse s with
    | none => []
    | some storedImages => storedImages.map fromCompact

/-- Outcome of a single `localStorage.setItem` attempt on the gallery
key: success, a `QuotaExceededError` (the capacity-exceeded signal that
the retry loop catches), or any other error (which aborts the save). -/
inductive WriteResult where
  | success
  | quotaExceeded
  | otherError
deriving DecidableEq, Repr

/-- The mutable state that `saveToLocalStorage` reads and writes: the
`galleryImages` React state and the stored payload under the gallery
key (`none` = key absent). -/
structure AppState where
  galleryImages : List GeneratedImage
  store : Option (List SavableImage)
deriving DecidableEq, Repr

/-- The observable way a `saveToLocalStorage` call returned. -/
inductive SaveOutcome where
  /-- gallery empty: the stored key was removed (lines 84-89). -/
  | clearedEmpty
  /-- serialized payload identical to what is stored: redundant write
  skipped (lines 98-100). -/
  | unchangedNoop
  /-- the very first write attempt succeeded, no eviction. -/
  | savedAll
  /-- a write succeeded after at least one eviction; the argument is the
  surviving record list that was stored. -/
  | savedEvicted (survivors : List SavableImage)
  /-- a non-capacity error: exit immediately (lines 119-122). -/
  | otherError
  /-- the retry loop emptied the list: total persistence failure with
  rollback (lines 126-141). -/
  | totalFailure
deriving DecidableEq, Repr

/-- The gallery that the total-failure branch rolls back to: the last
successfully persisted records reconstructed via `fromCompact`
(lines 131-140), or the empty collection when nothing was ever
persisted. -/
def rollbackGallery (store : Option (List SavableImage)) :
    List GeneratedImage :=
  match store with
  | some persisted => persisted.map fromCompact
  | none => []

/-- The `while (imagesToTry.length > 0)` retry loop of
`saveToLocalStorage` (lines 102-141), including the post-loop
total-failure branch.  `medium` says what writing a given record list
does; `gallery` and `store0` are `galleryImages` and the pre-call stored
payload, both captured before the loop.  On success the gallery is
reconciled by id against the surviving records when an eviction
happened (`imagesToTry.length < galleryImages.length`); on
`QuotaExceededError` the oldest record — the last of the newest-first
list — is popped and the write retried. -/
def evictLoop (medium : List SavableImage → WriteResult)
    (gallery : List GeneratedImage) (store0 : Option (List SavableImage)) :
    List SavableImage → AppState × SaveOutcome := fun imagesToTry =>
  if _h : imagesToTry = [] then
    if 0 < gallery.length then
      ({ galleryImages := rollbackGallery store0, store := store0 },
        SaveOutcome.totalFailure)
    else
      ({ galleryImages := gallery, store := store0 }, SaveOutcome.clearedEmpty)
  else
    match medium imagesToTry with
    | WriteResult.success =>
      if imagesToTry.length < gallery.length then
        ({ galleryImages :=
            gallery.filter (fun img =>
              imagesToTry.any (fun rec => rec.id == img.id)),
           store := some imagesToTry },
          SaveOutcome.savedEvicted imagesToTry)
      else
        ({ galleryImages := gallery, store := some imagesToTry },
          SaveOutcome.savedAll)
    | WriteResult.quotaExceeded =>
      evictLoop medium gallery store0 imagesToTry.dropLast
    | WriteResult.otherError =>
      ({ galleryImages := gallery, store := store0 }, SaveOutcome.otherError)
termination_by imagesToTry => imagesToTry.length
decreasing_by
  simp only [List.length_dropLast]
  exact Nat.sub_lt (List.length_pos.mpr _h) Nat.one_pos

/-- One-step unfolding equation for `evictLoop` (the function is defined
by well-founded recursion on the list length). -/
theorem evictLoop_eq (medium : List SavableImage → WriteResult)
    (gallery : List GeneratedImage) (store0 : Option (List SavableImage))
    (imagesToTry : List SavableImage) :
    evictLoop medium gallery store0 imagesToTry =
      if _h : imagesToTry = [] then
        if 0 < gallery.length then
          ({ galleryImages := rollbackGallery store0, store := store0 },
            SaveOutcome.totalFailure)
        else
          ({ galleryImages := gallery, store := store0 },
            SaveOutcome.clearedEmpty)
      else
        match medium imagesToTry with
        | WriteResult.success =>
          if imagesToTry.length < gallery.length then
            ({ galleryImages :=
                gallery.filter (fun img =>
                  imagesToTry.any (fun rec => rec.id == img.id)),
               store := some imagesToTry },
              SaveOutcome.savedEvicted imagesToTry)
          else
            ({ galleryImages := gallery, store := some imagesToTry },
              SaveOutcome.savedAll)
        | WriteResult.quotaExceeded =>
          evictLoop medium gallery store0 imagesToTry.dropLast
        | WriteResult.otherError =>
          ({ galleryImages := gallery, store := store0 },
            SaveOutcome.otherError) := by
  rw [evictLoop]

/-- `saveToLocalStorage` (lines 81-142): clear when the gallery is
empty, skip when the serialized compact list is byte-identical to the
stored payload, otherwise run the eviction retry loop on the compact
list. -/
def saveToLocalStorage (medium : List SavableImage → WriteResult)
    (st : AppState) : AppState × SaveOutcome :=
  if st.galleryImages = [] then
    ({ galleryImages := st.galleryImages, store := none },
      SaveOutcome.clearedEmpty)
  else
    let savableImages := st.galleryImages.map toCompact
    if st.store = some savableImages then (st, SaveOutcome.unchangedNoop)
    else evictLoop medium st.galleryImages st.store savableImages

/-- JavaScript `Array.prototype.slice(0, e)`: a negative end index counts
from the end of the array, then the result is the clamped take. -/
def jsSliceEnd {α : Type} (l : List α) (e : Int) : List α :=
  if e < 0 then l.take ((l.length + e).toNat) else l.take e.toNat

/-- The `ImageStudio` state touched by the edit-chain operations:
the displayed result (`generatedImage`), the undo/redo stack and cursor
(`editStack`, `editStackIndex`), the session history, and the gallery
the component inserts into via `addImageToGallery`. -/
structure StudioState where
  generatedImage : Option GeneratedImage
  editStack : List GeneratedImage
  editStackIndex : Int
  sessionHistory : List GeneratedImage
  gallery : List GeneratedImage
deriving DecidableEq, Repr

/-- `processNewImage` (lines 651-669): display the new image; on a fresh
chain restart the stack as `[image]` with cursor `0`; on a continuation
truncate the redo branch with `slice(0, editStackIndex + 1)`, append the
image and increment the cursor; record the image in the session history
and insert it into the gallery. -/
def processNewImage (s : StudioState) (image : GeneratedImage)
    (isFreshChain : Bool) : StudioState :=
  { generatedImage := some image
    editStack :=
      if isFreshChain then [image]
      else jsSliceEnd s.editStack (s.editStackIndex + 1) ++ [image]
    editStackIndex := if isFreshChain then 0 else s.editStackIndex + 1
    sessionHistory := image :: s.sessionHistory
    gallery := addImageToGallery image s.gallery }

/-- `handleUndo` (lines 1060-1066): only when `editStackIndex > 0`,
decrement the cursor and display `editStack[newIndex]` (JavaScript
indexing: out of range gives `undefined`, i.e. `none`). -/
def handleUndo (s : StudioState) : StudioState :=
  if 0 < s.editStackIndex then
    let newIndex := s.editStackIndex - 1
    { s with generatedImage := s.editStack.get? newIndex.toNat
             editStackIndex := newIndex }
  else s

/-- `handleRedo` (lines 1068-1074): only when
`editStackIndex < editStack.length - 1`, increment the cursor and
display `editStack[newIndex]`. -/
def handleRedo (s : StudioState) : StudioState :=
  if s.editStackIndex < (s.editStack.length : Int) - 1 then
    let newIndex := s.editStackIndex + 1
    { s with generatedImage := s.editStack.get? newIndex.toNat
             editStackIndex := newIndex }
  else s

/-- `resetOutputs` (lines 572-592) restricted to the modelled state: it
clears the displayed result, empties the edit stack and resets the
cursor to `-1`; it touches neither the session history nor the
gallery. -/
def resetOutputs (s : StudioState) : StudioState :=
  { s with generatedImage := none
           editStack := []
           editStackIndex := -1 }

/-- The edit-chain invariant stated in §3 of the design: the cursor is a
valid index into the sequence whenever the sequence is non-empty, and is
`-1` exactly when the sequence is empty. -/
def chainInv (s : StudioState) : Prop :=
  (s.editStack = [] ∧ s.editStackIndex = -1) ∨
    (0 ≤ s.editStackIndex ∧ s.editStackIndex < (s.editStack.length : Int))

instance (s : StudioState) : Decidable (chainInv s) := by
  unfold chainInv; infer_instance

/-- The fresh-vs-continuation classification used by `handleGenerate`
(line 744), `singleImageAction` (line 835) and `multiImageAction`
(line 882): the chain is fresh iff there is no displayed result or the
input's url differs from the displayed result's `src`. -/
def isFreshChainForInput (generatedImage : Option GeneratedImage)
    (inputUrl : String) : Bool :=
  match generatedImage with
  | none => true
  | some g => inputUrl != g.src

/-- Pure text-to-image generation (line 801): always a fresh chain. -/
def isFreshChainTextToImage : Bool := true

/-- `handleGenerateVariation` (line 914): variations always continue the
current chain (`processNewImage(newImage, false)`). -/
def isFreshChainVariation : Bool := false

/-- `createUpscaleHandler` (line 955): upscaling the displayed
`generatedImage` (`isFromGenerated = true`) always continues the chain;
upscaling an uploaded image re-evaluates input identity. -/
def isFreshChainUpscale (isFromGenerated : Bool)
    (generatedImage : Option GeneratedImage) (inputUrl : String) : Bool :=
  if isFromGenerated then false
  else isFreshChainForInput generatedImage inputUrl

/-- Stand-in for `Date.prototype.toISOString()` on a millisecond
timestamp: the rendering is injective in the millisecond value and
constant within one millisecond, which is all the development uses. -/
def isoOfMs (ms : Nat) : String := toString ms

/-- The artifact constructor of `singleImageAction` (lines 827-832):
`id` is `new Date().toISOString()` — a function of the creation
millisecond alone. -/
def mkSingleActionImage (nowMs : Nat) (data mime inputUrl prompt ty
    createdAtDisplay : String) : GeneratedImage :=
  { id := isoOfMs nowMs
    src := dataUri mime data
    originalSrc := some inputUrl
    base64 := data
    mimeType := mime
    prompt := prompt
    type := ty
    createdAt := createdAtDisplay
    parentId := none
    settings := none }

/-- Concrete sample artifact used to evaluate the development on closed
inputs; its `src` satisfies the §3 well-formedness invariant. -/
def sampleImage (tag : String) : GeneratedImage :=
  { id := tag
    src := dataUri "image/png" tag
    originalSrc := none
    base64 := tag
    mimeType := "image/png"
    prompt := "prompt " ++ tag
    type := "generate"
    createdAt := "2024-01-01"
    parentId := none
    settings := none }

/-- Concrete studio state: chain `[a, b, c]` with the cursor on `b`. -/
def exChainState : StudioState :=
  { generatedImage := some (sampleImage "b")
    editStack := [sampleImage "a", sampleImage "b", sampleImage "c"]
    editStackIndex := 1
    sessionHistory := []
    gallery := [] }

/-- Concrete studio state: singleton chain with the cursor on its only
entry (simultaneously first and last index). -/
def singletonChainState : StudioState :=
  { generatedImage := some (sampleImage "a")
    editStack := [sampleImage "a"]
    editStackIndex := 0
    sessionHistory := []
    gallery := [] }

/-- Concrete app state holding two gallery images and an empty store. -/
def twoImageAppState : AppState :=
  { galleryImages := [sampleImage "a", sampleImage "b"], store := none }

/-- Concrete app state holding one gallery image and an empty store. -/
def oneImageAppState : AppState :=
  { galleryImages := [sampleImage "a"], store := none }

/-- Expected app state after saving `twoImageAppState` through a medium
that only fits one record: the newest record survives, the older one is
evicted, and the gallery is reconciled. -/
def evictedAppState : AppState :=
  { galleryImages := [sampleImage "a"]
    store := some [toCompact (sampleImage "a")] }

/-- Concrete durable medium that accepts payloads of at most one
record and signals capacity-exceeded otherwise. -/
def oneRecordMedium : List SavableImage → WriteResult :=
  fun l => if l.length ≤ 1 then WriteResult.success
    else WriteResult.quotaExceeded

/-- Concrete durable medium that rejects every write with the
capacity-exceeded signal. -/
def alwaysQuotaMedium : List SavableImage → WriteResult :=
  fun _ => WriteResult.quotaExceeded

/-- The logo constructor of `BrandingKit` (lines 97-105): `id` is again
`new Date().toISOString()`. -/
def mkBrandLogoImage (nowMs : Nat) (data mime brandName
    createdAtDisplay : String) : GeneratedImage :=
  { id := isoOfMs nowMs
    src := dataUri mime data
    originalSrc := none
    base64 := data
    mimeType := mime
    prompt := "Logo for " ++ brandName
    type := "logo"
    createdAt := createdAtDisplay
    parentId := none
    settings := none }

/-- The brand-imagery constructor of `BrandingKit` (lines 129-137):
`id` is `new Date().toISOString() + Math.random()` — the timestamp with
a random numeric suffix appended. -/
def mkBrandAssetImage (nowMs : Nat) (randomSuffix data mime brandName
    createdAtDisplay : String) : GeneratedImage :=
  { id := isoOfMs nowMs ++ randomSuffix
    src := dataUri mime data
    originalSrc := none
    base64 := data
    mimeType := mime
    prompt := "Brand asset for " ++ brandName
    type := "brand-asset"
    createdAt := createdAtDisplay
    parentId := none
    settings := none }



/-! ## Claim theorems -/

/-- C5: inserting an artifact whose id already occurs in the gallery
leaves the collection exactly unchanged; inserting an artifact with a
new id prepends it, so the collection stays newest-first and unique by
id. -/
theorem addImageToGallery_idempotent_prepend (image : GeneratedImage)
    (prev : List GeneratedImage) :
    (prev.any (fun img => img.id == image.id) = true →
      addImageToGallery image prev = prev) ∧
    (prev.any (fun img => img.id == image.id) = false →
      addImageToGallery image prev = image :: prev ∧
      ((prev.map (fun img => img.id)).Nodup →
        ((addImageToGallery image prev).map (fun img => img.id)).Nodup)) := by
  constructor
  · intro h
    simp only [addImageToGallery, h, if_true]
  · intro h
    have hni : ∀ img ∈ prev, img.id ≠ image.id := by
      intro img hm
      have := List.any_eq_false.mp h img hm
      simpa using this
    constructor
    · simp only [addImageToGallery, h, Bool.false_eq_true, if_false]
    · intro hnd
      simp only [addImageToGallery, h, Bool.false_eq_true, if_false,
        List.map_cons, List.nodup_cons]
      refine ⟨?_, hnd⟩
      intro hmem
      rcases List.mem_map.mp hmem with ⟨img, hm, hid⟩
      exact hni img hm hid

/-- C5 witness: inserting `a` into `[a]` is a no-op; inserting `b` into
`[a]` prepends it. -/
theorem addImageToGallery_idempotent_prepend_witness :
    addImageToGallery (sampleImage "a") [sampleImage "a"] =
      [sampleImage "a"] ∧
    addImageToGallery (sampleImage "b") [sampleImage "a"] =
      sampleImage "b" :: [sampleImage "a"] := by
  have h1 :=
    addImageToGallery_idempotent_prepend (sampleImage "a") [sampleImage "a"]
  have h2 :=
    addImageToGallery_idempotent_prepend (sampleImage "b") [sampleImage "a"]
  exact ⟨h1.1 (by decide), (h2.2 (by decide)).1⟩

/-- C7: converting a well-formed artifact to its compact persisted form
and reconstructing it yields an artifact with byte-identical
`src` (displayBytes), while `originalSrc` (comparisonBytes) is
dropped. -/
theorem fromCompact_toCompact_roundTrip (a : GeneratedImage)
    (h : WellFormedSrc a) :
    (fromCompact (toCompact a)).src = a.src ∧
    (fromCompact (toCompact a)).originalSrc = none := by
  unfold WellFormedSrc at h
  exact ⟨by simp [fromCompact, toCompact, h], rfl⟩

/-- C7 witness: the round trip on a concrete well-formed artifact. -/
theorem fromCompact_toCompact_roundTrip_witness :
    (fromCompact (toCompact (sampleImage "a"))).src = (sampleImage "a").src ∧
    (fromCompact (toCompact (sampleImage "a"))).originalSrc = none :=
  fromCompact_toCompact_roundTrip (sampleImage "a") (by decide)

/-- C10: at startup, a missing stored payload and an unparseable stored
payload both initialize the gallery to the empty collection. -/
theorem initialGalleryImages_empty_on_missing_or_corrupt
    (parse : String → Option (List SavableImage)) (s : String)
    (hcorrupt : parse s = none) :
    initialGalleryImages none parse = [] ∧
    initialGalleryImages (some s) parse = [] := by
  refine ⟨rfl, ?_⟩
  simp [initialGalleryImages, hcorrupt]

/-- C10 witness: a concrete parser that rejects its input. -/
theorem initialGalleryImages_empty_on_missing_or_corrupt_witness :
    initialGalleryImages none (fun _ => none) = [] ∧
    initialGalleryImages (some "corrupt") (fun _ => none) = [] :=
  initialGalleryImages_empty_on_missing_or_corrupt (fun _ => none)
    "corrupt" rfl

/-- C4: an image-input transformation is classified as a continuation
iff a result is displayed and the input url is exactly the displayed
result's `src`; no displayed result, a different input source, and pure
text-to-image generation all force fresh; variations and
upscale-of-the-displayed-result are unconditionally continuations, and
upscale of an uploaded image re-evaluates input identity. -/
theorem chainClassification_spec (g : Option GeneratedImage)
    (url : String) :
    (isFreshChainForInput g url = false ↔
      ∃ gi, g = some gi ∧ url = gi.src) ∧
    (g = none → isFreshChainForInput g url = true) ∧
    (∀ gi, g = some gi → url ≠ gi.src →
      isFreshChainForInput g url = true) ∧
    isFreshChainTextToImage = true ∧
    isFreshChainVariation = false ∧
    isFreshChainUpscale true g url = false ∧
    isFreshChainUpscale false g url = isFreshChainForInput g url := by
  refine ⟨?_, ?_, ?_, rfl, rfl, rfl, rfl⟩
  · cases g with
    | none => simp [isFreshChainForInput]
    | some gi => simp [isFreshChainForInput]
  · intro h; subst h; rfl
  · intro gi h hne; subst h
    simp [isFreshChainForInput, hne]

/-- C4 witness: with `b` displayed, feeding `b`'s `src` back in is a
continuation, feeding a different url is fresh, and upscaling the
displayed result is a continuation regardless of url. -/
theorem chainClassification_spec_witness :
    isFreshChainForInput (some (sampleImage "b")) (sampleImage "b").src
      = false ∧
    isFreshChainForInput (some (sampleImage "b")) "blob:other" = true ∧
    isFreshChainForInput none "blob:other" = true ∧
    isFreshChainUpscale true (some (sampleImage "b")) "blob:other"
      = false := by
  have h1 := chainClassification_spec (some (sampleImage "b"))
    (sampleImage "b").src
  have h2 := chainClassification_spec (some (sampleImage "b")) "blob:other"
  have h3 := chainClassification_spec (none : Option GeneratedImage)
    "blob:other"
  refine ⟨h1.1.mpr ⟨sampleImage "b", rfl, rfl⟩, ?_, h3.2.1 rfl, ?_⟩
  · exact h2.2.2.1 (sampleImage "b") rfl (by decide)
  · exact h2.2.2.2.2.2.1

/-- C8: the code contradicts the global-uniqueness invariant: artifact
ids are derived from the creation timestamp alone
(`new Date().toISOString()`), so two distinct artifacts produced in the
same millisecond — here a studio edit and a brand logo at millisecond
`0`, and two brand assets whose random suffixes happen to coincide —
receive identical ids. -/
theorem sameMillisecondIdCollision :
    ((mkSingleActionImage 0 "d1" "image/png" "u1" "p1" "edit" "t").id =
      (mkBrandLogoImage 0 "d2" "image/png" "Acme" "t").id ∧
     mkSingleActionImage 0 "d1" "image/png" "u1" "p1" "edit" "t" ≠
      mkBrandLogoImage 0 "d2" "image/png" "Acme" "t") ∧
    ((mkBrandAssetImage 0 "0.5" "d3" "image/jpeg" "Acme" "t").id =
      (mkBrandAssetImage 0 "0.5" "d4" "image/jpeg" "Acme" "t").id ∧
     mkBrandAssetImage 0 "0.5" "d3" "image/jpeg" "Acme" "t" ≠
      mkBrandAssetImage 0 "0.5" "d4" "image/jpeg" "Acme" "t") := by
  decide

/-- C3: pushing a fresh-classified candidate yields the singleton stack
with cursor `0`; pushing a continuation-classified candidate truncates
the stack to indices `0..cursor` inclusive, appends the candidate, and
sets the cursor to the new last index. -/
theorem processNewImage_chain_spec (s : StudioState)
    (image : GeneratedImage) :
    ((processNewImage s image true).editStack = [image] ∧
     (processNewImage s image true).editStackIndex = 0) ∧
    (0 ≤ s.editStackIndex →
      s.editStackIndex < (s.editStack.length : Int) →
      (processNewImage s image false).editStack =
        s.editStack.take (s.editStackIndex + 1).toNat ++ [image] ∧
      (processNewImage s image false).editStackIndex =
        ((processNewImage s image false).editStack.length : Int) - 1) := by
  refine ⟨⟨rfl, rfl⟩, ?_⟩
  intro h0 hlen
  have hstack : (processNewImage s image false).editStack =
      s.editStack.take (s.editStackIndex + 1).toNat ++ [image] := by
    simp only [processNewImage, jsSliceEnd, Bool.false_eq_true, if_false]
    rw [if_neg (by omega)]
  refine ⟨hstack, ?_⟩
  rw [hstack]
  simp only [processNewImage, Bool.false_eq_true, if_false,
    List.length_append, List.length_take, List.length_cons,
    List.length_nil]
  omega

/-- C3 witness: chain `[a, b, c]` with cursor `1` plus continuation `d`
yields `[a, b, d]` with cursor `2`, and a fresh push restarts the
chain. -/
theorem processNewImage_chain_spec_witness :
    (processNewImage exChainState (sampleImage "d") false).editStack =
      [sampleImage "a", sampleImage "b", sampleImage "d"] ∧
    (processNewImage exChainState (sampleImage "d") false).editStackIndex
      = 2 ∧
    (processNewImage exChainState (sampleImage "x") true).editStack =
      [sampleImage "x"] ∧
    (processNewImage exChainState (sampleImage "x") true).editStackIndex
      = 0 := by
  have h := processNewImage_chain_spec exChainState (sampleImage "d")
  have hf := processNewImage_chain_spec exChainState (sampleImage "x")
  obtain ⟨hs, hi⟩ := h.2 (by decide) (by decide)
  refine ⟨?_, ?_, hf.1.1, hf.1.2⟩
  · rw [hs]; decide
  · rw [hi, hs]; decide

/-- C6: undo at cursor `0` and redo at the last index leave the whole
modelled state (displayed result, stack, cursor, session history,
gallery — hence also the persisted store, whose writes are triggered
only by gallery changes) unchanged; otherwise undo decrements the
cursor and displays the artifact at the new cursor, and redo increments
the cursor and displays the artifact at the new cursor, neither
touching the stack, the history, nor the gallery. -/
theorem undo_redo_spec (s : StudioState) (hinv : chainInv s) :
    (s.editStackIndex = 0 → handleUndo s = s) ∧
    (s.editStackIndex = (s.editStack.length : Int) - 1 →
      handleRedo s = s) ∧
    (0 < s.editStackIndex →
      (s.editStack.get? (s.editStackIndex - 1).toNat).isSome = true ∧
      handleUndo s =
        { s with
          generatedImage := s.editStack.get? (s.editStackIndex - 1).toNat
          editStackIndex := s.editStackIndex - 1 }) ∧
    (s.editStackIndex < (s.editStack.length : Int) - 1 →
      (s.editStack.get? (s.editStackIndex + 1).toNat).isSome = true ∧
      handleRedo s =
        { s with
          generatedImage := s.editStack.get? (s.editStackIndex + 1).toNat
          editStackIndex := s.editStackIndex + 1 }) := by
  refine ⟨?_, ?_, ?_, ?_⟩
  · intro h
    simp only [handleUndo, h]
    rfl
  · intro h
    simp only [handleRedo, h]
    rw [if_neg (by omega)]
  · intro h
    have hnth : (s.editStackIndex - 1).toNat < s.editStack.length := by
      rcases hinv with ⟨_, h1⟩ | ⟨h1, h2⟩
      · omega
      · omega
    refine ⟨?_, ?_⟩
    · rw [List.get?_eq_get hnth]
      rfl
    · simp only [handleUndo, h, if_true]
  · intro h
    have hge : 0 ≤ s.editStackIndex := by
      rcases hinv with ⟨he, h1⟩ | ⟨h1, h2⟩
      · rw [he] at h
        simp at h
        omega
      · exact h1
    have hnth : (s.editStackIndex + 1).toNat < s.editStack.length := by
      omega
    refine ⟨?_, ?_⟩
    · rw [List.get?_eq_get hnth]
      rfl
    · simp only [handleRedo, h, if_true]

/-- C6 witness: boundary no-ops on the singleton chain, and actual
cursor moves on `[a, b, c]` with cursor `1`. -/
theorem undo_redo_spec_witness :
    handleUndo singletonChainState = singletonChainState ∧
    handleRedo singletonChainState = singletonChainState ∧
    handleUndo exChainState =
      { exChainState with
        generatedImage := some (sampleImage "a")
        editStackIndex := 0 } ∧
    handleRedo exChainState =
      { exChainState with
        generatedImage := some (sampleImage "c")
        editStackIndex := 2 } := by
  have h1 := undo_redo_spec singletonChainState (by decide)
  have h2 := undo_redo_spec exChainState (by decide)
  refine ⟨h1.1 (by decide), h1.2.1 (by decide), ?_, ?_⟩
  · rw [(h2.2.2.1 (by decide)).2]
    decide
  · rw [(h2.2.2.2 (by decide)).2]
    decide

/-- C9: every edit-chain operation — fresh push, continuation push,
undo, redo, and reset — preserves the invariant that the cursor is a
valid index into the stack when the stack is non-empty and is `-1`
exactly when the stack is empty. -/
theorem chainInv_preserved (s : StudioState) (image : GeneratedImage)
    (isFreshChain : Bool) (hinv : chainInv s) :
    chainInv (processNewImage s image isFreshChain) ∧
    chainInv (handleUndo s) ∧
    chainInv (handleRedo s) ∧
    chainInv (resetOutputs s) := by
  refine ⟨?_, ?_, ?_, ?_⟩
  · cases isFreshChain with
    | true =>
      right
      constructor
      · simp [processNewImage]
      · simp [processNewImage]
    | false =>
      right
      rcases hinv with ⟨he, h1⟩ | ⟨h1, h2⟩
      · constructor
        · simp [processNewImage, h1]
        · simp [processNewImage, jsSliceEnd, he, h1]
      · constructor
        · simp only [processNewImage]
          omega
        · simp only [processNewImage, jsSliceEnd, Bool.false_eq_true,
            if_false, List.length_append, List.length_take,
            List.length_cons, List.length_nil]
          rw [if_neg (by omega)]
          simp only [List.length_take]
          omega
  · unfold handleUndo
    split
    · rcases hinv with ⟨_, h1⟩ | ⟨h1, h2⟩
      · omega
      · right
        constructor
        · simp only []
          omega
        · simp only []
          omega
    · exact hinv
  · unfold handleRedo
    split
    · rcases hinv with ⟨he, h1⟩ | ⟨h1, h2⟩
      · rename_i hc
        rw [he] at hc
        simp at hc
        omega
      · right
        constructor
        · simp only []
          omega
        · rename_i hc
          simp only []
          omega
    · exact hinv
  · left
    exact ⟨rfl, rfl⟩

/-- C9 witness: invariant preservation evaluated on the concrete chain
`[a, b, c]` with cursor `1`. -/
theorem chainInv_preserved_witness :
    chainInv (processNewImage exChainState (sampleImage "d") false) ∧
    chainInv (handleUndo exChainState) ∧
    chainInv (handleRedo exChainState) ∧
    chainInv (resetOutputs exChainState) :=
  chainInv_preserved exChainState (sampleImage "d") false (by decide)

/-! ## Eviction-loop lemmas -/

/-- Popping the oldest record from the newest `j` records leaves the
newest `j - 1` records. -/
theorem take_dropLast_of_le {α : Type} (l : List α) (j : Nat)
    (hj : j ≤ l.length) : (l.take j).dropLast = l.take (j - 1) := by
  rw [List.dropLast_eq_take, List.take_take, List.length_take]
  congr 1
  omega

/-- Characterization of a `savedEvicted` return of the retry loop
started on the newest `j` records: the survivors are the newest `k`
records for some `0 < k ≤ j`, writing them succeeded, every longer
attempted list was rejected with the capacity signal, and the resulting
state stores the survivors and reconciles the gallery by id. -/
theorem evictLoop_savedEvicted_spec
    (medium : List SavableImage → WriteResult)
    (gallery : List GeneratedImage) (store0 : Option (List SavableImage))
    (savable : List SavableImage) :
    ∀ j : Nat, j ≤ savable.length →
      ∀ st' survivors,
        evictLoop medium gallery store0 (savable.take j) =
          (st', SaveOutcome.savedEvicted survivors) →
        ∃ k, 0 < k ∧ k ≤ j ∧ survivors = savable.take k ∧
          medium survivors = WriteResult.success ∧
          survivors.length < gallery.length ∧
          (∀ i, k < i → i ≤ j →
            medium (savable.take i) = WriteResult.quotaExceeded) ∧
          st' = { galleryImages := gallery.filter
                    (fun img => survivors.any (fun rec => rec.id == img.id))
                  store := some survivors } := by
  intro j
  induction j with
  | zero =>
    intro _ st' survivors h
    rw [List.take_zero, evictLoop_eq] at h
    rw [dif_pos rfl] at h
    by_cases hg : 0 < gallery.length
    · rw [if_pos hg] at h
      simp at h
    · rw [if_neg hg] at h
      simp at h
  | succ j ih =>
    intro hj st' survivors h
    have hlt : (savable.take (j + 1)).length = j + 1 := by
      rw [List.length_take]
      omega
    have hne : savable.take (j + 1) ≠ [] := by
      intro hcon
      rw [hcon] at hlt
      simp at hlt
    rw [evictLoop_eq, dif_neg hne] at h
    cases hm : medium (savable.take (j + 1)) with
    | success =>
      rw [hm] at h
      by_cases hglt : (savable.take (j + 1)).length < gallery.length
      · rw [if_pos hglt] at h
        simp only [Prod.mk.injEq, SaveOutcome.savedEvicted.injEq] at h
        obtain ⟨hst, hsurv⟩ := h
        subst hsurv
        subst hst
        exact ⟨j + 1, by omega, Nat.le_refl _, rfl, hm, hglt,
          fun i hki hij => absurd hij (by omega), rfl⟩
      · rw [if_neg hglt] at h
        simp at h
    | quotaExceeded =>
      rw [hm] at h
      have hstep : evictLoop medium gallery store0
          ((savable.take (j + 1)).dropLast) =
          (st', SaveOutcome.savedEvicted survivors) := h
      rw [take_dropLast_of_le savable (j + 1) hj] at hstep
      simp only [Nat.add_sub_cancel] at hstep
      obtain ⟨k, hk0, hkj, hsurv, hmed, hglen, hquota, hst⟩ :=
        ih (by omega) st' survivors hstep
      refine ⟨k, hk0, by omega, hsurv, hmed, hglen, ?_, hst⟩
      intro i hki hij
      by_cases hie : i = j + 1
      · subst hie
        exact hm
      · exact hquota i hki (by omega)
    | otherError =>
      rw [hm] at h
      simp at h

/-- When every attempted write of the newest `i ≤ j` records is rejected
with the capacity signal, the retry loop started on the newest `j`
records of a non-empty gallery empties the list and returns the
total-failure rollback state with the store untouched. -/
theorem evictLoop_allQuota
    (medium : List SavableImage → WriteResult)
    (gallery : List GeneratedImage) (store0 : Option (List SavableImage))
    (savable : List SavableImage) (hg : gallery ≠ []) :
    ∀ j : Nat, j ≤ savable.length →
      (∀ i, 0 < i → i ≤ j →
        medium (savable.take i) = WriteResult.quotaExceeded) →
      evictLoop medium gallery store0 (savable.take j) =
        ({ galleryImages := rollbackGallery store0, store := store0 },
          SaveOutcome.totalFailure) := by
  intro j
  induction j with
  | zero =>
    intro _ _
    rw [List.take_zero, evictLoop_eq, dif_pos rfl,
      if_pos (List.length_pos.mpr hg)]
  | succ j ih =>
    intro hj hq
    have hlt : (savable.take (j + 1)).length = j + 1 := by
      rw [List.length_take]
      omega
    have hne : savable.take (j + 1) ≠ [] := by
      intro hcon
      rw [hcon] at hlt
      simp at hlt
    rw [evictLoop_eq, dif_neg hne]
    have hm := hq (j + 1) (by omega) (Nat.le_refl _)
    rw [hm]
    show evictLoop medium gallery store0 ((savable.take (j + 1)).dropLast)
      = _
    rw [take_dropLast_of_le savable (j + 1) hj]
    simp only [Nat.add_sub_cancel]
    exact ih (by omega) (fun i h0 hij => hq i h0 (by omega))

/-- C1: whenever a save returns after evicting, the surviving records
are exactly the newest `k` compact records of the input list for some
`k` — a newest-first prefix — obtained by repeatedly dropping the single
oldest record on each capacity-exceeded rejection until the first
successful write (every longer attempt was capacity-rejected, the
surviving one was written), and the in-memory gallery is reconciled to
exactly the artifacts whose ids survived. -/
theorem saveToLocalStorage_eviction_prefix
    (medium : List SavableImage → WriteResult) (st st' : AppState)
    (survivors : List SavableImage)
    (hrun : saveToLocalStorage medium st =
      (st', SaveOutcome.savedEvicted survivors)) :
    ∃ k, 0 < k ∧ k ≤ (st.galleryImages.map toCompact).length ∧
      survivors = (st.galleryImages.map toCompact).take k ∧
      medium survivors = WriteResult.success ∧
      (∀ i, k < i → i ≤ (st.galleryImages.map toCompact).length →
        medium ((st.galleryImages.map toCompact).take i) =
          WriteResult.quotaExceeded) ∧
      st'.store = some survivors ∧
      st'.galleryImages = st.galleryImages.filter
        (fun img => survivors.any (fun rec => rec.id == img.id)) := by
  simp only [saveToLocalStorage] at hrun
  by_cases hemp : st.galleryImages = []
  · rw [if_pos hemp] at hrun
    simp at hrun
  · rw [if_neg hemp] at hrun
    by_cases hnoop : st.store = some (st.galleryImages.map toCompact)
    · rw [if_pos hnoop] at hrun
      simp at hrun
    · rw [if_neg hnoop] at hrun
      rw [show st.galleryImages.map toCompact =
          (st.galleryImages.map toCompact).take
            (st.galleryImages.map toCompact).length from
          (List.take_length _).symm] at hrun
      obtain ⟨k, hk0, hkj, hsurv, hmed, hglen, hquota, hst⟩ :=
        evictLoop_savedEvicted_spec medium st.galleryImages st.store
          (st.galleryImages.map toCompact)
          (st.galleryImages.map toCompact).length (Nat.le_refl _)
          st' survivors hrun
      refine ⟨k, hk0, hkj, hsurv, hmed, hquota, ?_, ?_⟩
      · rw [hst]
      · rw [hst]

/-- C1 witness: a two-image gallery saved through a medium that fits a
single record evicts the oldest image and reconciles the gallery. -/
theorem saveToLocalStorage_eviction_prefix_witness :
    [toCompact (sampleImage "a")] =
      (twoImageAppState.galleryImages.map toCompact).take 1 ∧
    oneRecordMedium [toCompact (sampleImage "a")] =
      WriteResult.success ∧
    oneRecordMedium (twoImageAppState.galleryImages.map toCompact) =
      WriteResult.quotaExceeded ∧
    evictedAppState.store = some [toCompact (sampleImage "a")] ∧
    evictedAppState.galleryImages = twoImageAppState.galleryImages.filter
      (fun img => [toCompact (sampleImage "a")].any
        (fun rec => rec.id == img.id)) := by
  have hrun : saveToLocalStorage oneRecordMedium twoImageAppState =
      (evictedAppState,
        SaveOutcome.savedEvicted [toCompact (sampleImage "a")]) := by
    simp only [saveToLocalStorage]
    rw [if_neg (by decide), if_neg (by decide)]
    have step1 : evictLoop oneRecordMedium twoImageAppState.galleryImages
        twoImageAppState.store
        (twoImageAppState.galleryImages.map toCompact) =
        evictLoop oneRecordMedium twoImageAppState.galleryImages
          twoImageAppState.store [toCompact (sampleImage "a")] := by
      rw [evictLoop_eq, dif_neg (by decide)]
      have hm : oneRecordMedium
          (twoImageAppState.galleryImages.map toCompact) =
          WriteResult.quotaExceeded := by decide
      rw [hm]
      rfl
    rw [step1, evictLoop_eq, dif_neg (by decide)]
    have hm2 : oneRecordMedium [toCompact (sampleImage "a")] =
        WriteResult.success := by decide
    rw [hm2, if_pos (by decide)]
    decide
  obtain ⟨k, hk0, hkj, hsurv, hmed, hquota, hstore, hgal⟩ :=
    saveToLocalStorage_eviction_prefix oneRecordMedium twoImageAppState
      evictedAppState [toCompact (sampleImage "a")] hrun
  have hk1 : k = 1 := by
    have hlen := congrArg List.length hsurv
    simp only [List.length_take, List.length_cons, List.length_nil,
      List.length_map] at hlen
    have h2 : twoImageAppState.galleryImages.length = 2 := by decide
    rw [h2] at hlen
    omega
  subst hk1
  refine ⟨hsurv, hmed, ?_, hstore, hgal⟩
  have h2 := hquota 2 (by omega) (by decide)
  rw [show (twoImageAppState.galleryImages.map toCompact).take 2 =
      twoImageAppState.galleryImages.map toCompact from by decide] at h2
  exact h2

/-- C2: when the gallery is non-empty, its compact form differs from the
stored payload, and every attempted write is capacity-rejected so the
retry loop empties the list, the save reports total persistence
failure, the stored payload is left exactly as it was, and the
in-memory gallery is rolled back to the collection reconstructed from
the last persisted state (empty if nothing was ever persisted) — so any
artifact whose id is not among the persisted records, in particular the
just-inserted one, is discarded from the gallery. -/
theorem saveToLocalStorage_totalFailure_rollback
    (medium : List SavableImage → WriteResult) (st : AppState)
    (hne : st.galleryImages ≠ [])
    (hch : st.store ≠ some (st.galleryImages.map toCompact))
    (hquota : ∀ i, 0 < i →
      i ≤ (st.galleryImages.map toCompact).length →
      medium ((st.galleryImages.map toCompact).take i) =
        WriteResult.quotaExceeded) :
    saveToLocalStorage medium st =
      ({ galleryImages := rollbackGallery st.store, store := st.store },
        SaveOutcome.totalFailure) ∧
    ∀ newImg : GeneratedImage,
      (∀ rec ∈ st.store.getD [], rec.id ≠ newImg.id) →
      newImg ∉ rollbackGallery st.store := by
  constructor
  · simp only [saveToLocalStorage]
    rw [if_neg hne, if_neg hch]
    rw [show st.galleryImages.map toCompact =
        (st.galleryImages.map toCompact).take
          (st.galleryImages.map toCompact).length from
        (List.take_length _).symm]
    exact evictLoop_allQuota medium st.galleryImages st.store
      (st.galleryImages.map toCompact) hne
      (st.galleryImages.map toCompact).length (Nat.le_refl _) hquota
  · intro newImg hids hmem
    cases hstore : st.store with
    | none =>
      rw [hstore] at hmem
      simp [rollbackGallery] at hmem
    | some persisted =>
      rw [hstore] at hmem
      simp only [rollbackGallery, List.mem_map] at hmem
      obtain ⟨rec, hrec, heq⟩ := hmem
      have : rec.id = newImg.id := by
        rw [← heq]
        rfl
      exact hids rec (by rw [hstore]; exact hrec) this

/-- C2 witness: a one-image gallery with an empty store saved through a
medium that rejects everything reports total failure, leaves the store
empty, and rolls the gallery back to the empty collection. -/
theorem saveToLocalStorage_totalFailure_rollback_witness :
    saveToLocalStorage alwaysQuotaMedium oneImageAppState =
      ({ galleryImages := rollbackGallery oneImageAppState.store,
         store := oneImageAppState.store },
        SaveOutcome.totalFailure) ∧
    sampleImage "a" ∉ rollbackGallery oneImageAppState.store := by
  have h := saveToLocalStorage_totalFailure_rollback alwaysQuotaMedium
    oneImageAppState (by decide) (by decide) (fun _ _ _ => rfl)
  exact ⟨h.1, h.2 (sampleImage "a") (by decide)⟩
